import Mathlib

/-
  Verification of the vehicle-dynamics core of sammhicks/bevy-driving-test
  (src/main.rs), as a shallow embedding over exact reals.

  Modelling conventions:
  * f32 arithmetic is embedded in ℝ; the real number 0 stands for +0.0
    (so `signum 0 = 1`, matching Rust's `f32::signum` on positive zero).
  * `f32::EPSILON` is 2⁻²³ exactly.
  * Rust division is real division; Lean's x / 0 = 0 convention only matters
    for configurations the program never constructs.
  * `bevy::math::Vec2` is a pair of reals, `Mat2::from_angle` is `rotate`.
-/

noncomputable section

/-- Two-dimensional vector of reals, modelling `bevy::math::Vec2`. -/
@[ext]
structure Vec2 where
  x : ℝ
  y : ℝ

instance : Zero Vec2 := ⟨⟨0, 0⟩⟩
instance : Add Vec2 := ⟨fun a b => ⟨a.x + b.x, a.y + b.y⟩⟩
instance : Sub Vec2 := ⟨fun a b => ⟨a.x - b.x, a.y - b.y⟩⟩
instance : Neg Vec2 := ⟨fun a => ⟨-a.x, -a.y⟩⟩
instance : HMul ℝ Vec2 Vec2 := ⟨fun c v => ⟨c * v.x, c * v.y⟩⟩
instance : HMul Vec2 ℝ Vec2 := ⟨fun v c => ⟨v.x * c, v.y * c⟩⟩
instance : HMul Vec2 Vec2 Vec2 := ⟨fun a b => ⟨a.x * b.x, a.y * b.y⟩⟩
instance : HDiv Vec2 ℝ Vec2 := ⟨fun v c => ⟨v.x / c, v.y / c⟩⟩

/-- `Vec2::length`: the Euclidean norm. -/
def Vec2.length (v : Vec2) : ℝ := Real.sqrt (v.x ^ 2 + v.y ^ 2)

/-- `Vec2::abs`: component-wise absolute value. -/
def Vec2.absV (v : Vec2) : Vec2 := ⟨|v.x|, |v.y|⟩

/-- `Mat2::from_angle(θ) * v`: counter-clockwise rotation by θ. -/
def rotate (θ : ℝ) (v : Vec2) : Vec2 :=
  ⟨Real.cos θ * v.x - Real.sin θ * v.y, Real.sin θ * v.x + Real.cos θ * v.y⟩

/-- `f32::signum`, with real 0 standing for +0.0 (whose signum is 1). -/
def signum (x : ℝ) : ℝ := if x < 0 then -1 else 1

/-- `f32::EPSILON = 2⁻²³`. -/
def f32Epsilon : ℝ := 1 / 8388608

/-- `f32::atan2` over the reals (zero arguments treated as +0.0). -/
def atan2 (y x : ℝ) : ℝ :=
  if 0 < x then Real.arctan (y / x)
  else if x < 0 then
    if y < 0 then Real.arctan (y / x) - Real.pi else Real.arctan (y / x) + Real.pi
  else if 0 < y then Real.pi / 2
  else if y < 0 then -(Real.pi / 2)
  else 0

/-- `f32 as i32`: truncation toward zero (saturation and NaN ignored: the
quantity is only ever reported, never fed back into the simulation). -/
def rustAsI32 (x : ℝ) : ℤ := if x < 0 then -Int.floor (-x) else Int.floor x

/-- Transcription of `clamp` (src/main.rs lines 11-20).  The Rust function
asserts `min <= max`; theorems about it carry that as a hypothesis. -/
def clamp (t min max : ℝ) : Bool × ℝ :=
  if t < min then (true, min)
  else if t > max then (true, max)
  else (false, t)

/-- `CarConfig` (src/main.rs lines 48-80). -/
structure CarConfig where
  gravity : ℝ
  mass : ℝ
  inertia_scale : ℝ
  half_width : ℝ
  centre_of_gravity_to_front : ℝ
  centre_of_gravity_to_rear : ℝ
  centre_of_gravity_to_front_axle : ℝ
  centre_of_gravity_to_rear_axle : ℝ
  centre_of_gravity_height : ℝ
  wheel_radius : ℝ
  wheel_width : ℝ
  engine_force : ℝ
  brake_force : ℝ
  e_brake_force : ℝ
  weight_transfer : ℝ
  max_steer : ℝ
  corner_stiffness_front : ℝ
  corner_stiffness_rear : ℝ
  air_resistance : ℝ
  roll_resistance : ℝ
  e_brake_grip_ratio_front : ℝ
  total_tire_grip_front : ℝ
  e_brake_grip_ratio_rear : ℝ
  total_tire_grip_rear : ℝ
  steer_speed : ℝ
  speed_steer_correction : ℝ
  speed_turning_stability : ℝ
  axle_distance_correction : ℝ

/-- `CarConfig::default` (src/main.rs lines 82-115). -/
def defaultConfig : CarConfig where
  gravity := 9.81
  mass := 1500
  inertia_scale := 1
  half_width := 0.64
  centre_of_gravity_to_front := 1.7
  centre_of_gravity_to_rear := 1.7
  centre_of_gravity_to_front_axle := 1
  centre_of_gravity_to_rear_axle := 1
  centre_of_gravity_height := 0.55
  wheel_radius := 0.5
  wheel_width := 0.2
  engine_force := 8000
  brake_force := 12000
  e_brake_force := 4800
  weight_transfer := 0.2
  max_steer := 0.6
  corner_stiffness_front := 5
  corner_stiffness_rear := 5.2
  air_resistance := 2.5
  roll_resistance := 8
  e_brake_grip_ratio_front := 0.9
  total_tire_grip_front := 2.5
  e_brake_grip_ratio_rear := 0.4
  total_tire_grip_rear := 2.5
  steer_speed := 2.5
  speed_steer_correction := 60
  speed_turning_stability := 11.8
  axle_distance_correction := 1.7

/-- `CarInputs` (src/main.rs lines 42-46). -/
structure CarInputs where
  throttle : ℝ
  brake : ℝ
  e_brake : ℝ

/-- All-zero control inputs (no key pressed in `step`). -/
def zeroInputs : CarInputs := ⟨0, 0, 0⟩

/-- `CarState` (src/main.rs lines 138-148). -/
@[ext]
structure CarState where
  heading : ℝ
  position : Vec2
  velocity : Vec2
  acceleration : Vec2
  local_acceleration : Vec2
  yaw_rate : ℝ
  steer : ℝ
  steer_angle : ℝ

/-- `CarState::default()`: the all-zero spawn state. -/
def zeroState : CarState := ⟨0, 0, 0, 0, 0, 0, 0, 0⟩

/-- `CarStats` (src/main.rs lines 150-171). -/
structure CarStats where
  fps : ℤ
  speed_mps : ℝ
  speed_kph : ℝ
  speed_mph : ℝ
  steering : ℝ
  steer_angle : ℝ
  front_left_active_weight : ℝ
  front_right_active_weight : ℝ
  rear_left_active_weight : ℝ
  rear_right_active_weight : ℝ
  front_left_friction : ℝ
  front_right_friction : ℝ
  rear_left_friction : ℝ
  rear_right_friction : ℝ
  front_left_is_skidding : Bool
  front_right_is_skidding : Bool
  rear_left_is_skidding : Bool
  rear_right_is_skidding : Bool
  weight_position : Vec2

/-- `centre_of_gravity_to_front_axle * axle_distance_correction`
(src/main.rs lines 182-183). -/
def correctedFrontAxle (c : CarConfig) : ℝ :=
  c.centre_of_gravity_to_front_axle * c.axle_distance_correction

/-- `centre_of_gravity_to_rear_axle * axle_distance_correction`
(src/main.rs lines 184-185). -/
def correctedRearAxle (c : CarConfig) : ℝ :=
  c.centre_of_gravity_to_rear_axle * c.axle_distance_correction

/-- `wheel_base` (src/main.rs line 187). -/
def wheelBase (c : CarConfig) : ℝ := correctedFrontAxle c + correctedRearAxle c

/-- `axle_weight_ratio_front` (src/main.rs line 188). -/
def axleWeightRatioFront (c : CarConfig) : ℝ := correctedRearAxle c / wheelBase c

/-- `axle_weight_ratio_rear` (src/main.rs line 189). -/
def axleWeightRatioRear (c : CarConfig) : ℝ := correctedFrontAxle c / wheelBase c

/-- `local_velocity` (src/main.rs line 191). -/
def localVelocity (s : CarState) : Vec2 := rotate (-s.heading) s.velocity

/-- `transfer_x` (src/main.rs lines 193-195). -/
def transferX (c : CarConfig) (s : CarState) : ℝ :=
  c.weight_transfer * c.centre_of_gravity_height * s.local_acceleration.x / wheelBase c

/-- `transfer_y` (src/main.rs lines 196-199). -/
def transferY (c : CarConfig) (s : CarState) : ℝ :=
  c.weight_transfer * s.local_acceleration.y * c.centre_of_gravity_height
    / (c.half_width * 2) * 20

/-- `weight_front` (src/main.rs line 201). -/
def weightFront (c : CarConfig) (s : CarState) : ℝ :=
  c.mass * (axleWeightRatioFront c * c.gravity - transferX c s)

/-- `weight_rear` (src/main.rs line 202). -/
def weightRear (c : CarConfig) (s : CarState) : ℝ :=
  c.mass * (axleWeightRatioRear c * c.gravity + transferX c s)

/-- `front_left_active_weight` (src/main.rs line 204). -/
def frontLeftWeight (c : CarConfig) (s : CarState) : ℝ := weightFront c s - transferY c s

/-- `front_right_active_weight` (src/main.rs line 205). -/
def frontRightWeight (c : CarConfig) (s : CarState) : ℝ := weightFront c s + transferY c s

/-- `rear_left_active_weight` (src/main.rs line 206). -/
def rearLeftWeight (c : CarConfig) (s : CarState) : ℝ := weightRear c s - transferY c s

/-- `rear_right_active_weight` (src/main.rs line 207). -/
def rearRightWeight (c : CarConfig) (s : CarState) : ℝ := weightRear c s + transferY c s

/-- `total_weight` (src/main.rs lines 224-227). -/
def totalWeight (c : CarConfig) (s : CarState) : ℝ :=
  frontLeftWeight c s + frontRightWeight c s + rearLeftWeight c s + rearRightWeight c s

/-- The load-weighted `position` accumulator (src/main.rs lines 215-222). -/
def weightPositionSum (c : CarConfig) (s : CarState) : Vec2 :=
  frontLeftWeight c s * (⟨correctedFrontAxle c, c.half_width⟩ : Vec2)
    + frontRightWeight c s * (⟨correctedFrontAxle c, -c.half_width⟩ : Vec2)
    + rearLeftWeight c s * (⟨-correctedRearAxle c, c.half_width⟩ : Vec2)
    + rearRightWeight c s * (⟨-correctedRearAxle c, -c.half_width⟩ : Vec2)

/-- `weight_position` (src/main.rs lines 209-234). -/
def weightPosition (c : CarConfig) (s : CarState) : Vec2 :=
  if totalWeight c s > f32Epsilon then weightPositionSum c s / totalWeight c s else 0

/-- `yaw_speed_front` (src/main.rs line 236). -/
def yawSpeedFront (c : CarConfig) (s : CarState) : ℝ := correctedFrontAxle c * s.yaw_rate

/-- `yaw_speed_rear` (src/main.rs line 237). -/
def yawSpeedRear (c : CarConfig) (s : CarState) : ℝ := -correctedRearAxle c * s.yaw_rate

/-- `slip_angle_front` (src/main.rs lines 239-240). -/
def slipAngleFront (c : CarConfig) (s : CarState) : ℝ :=
  atan2 ((localVelocity s).y + yawSpeedFront c s) |(localVelocity s).x|
    - signum (localVelocity s).x * s.steer_angle

/-- `slip_angle_rear` (src/main.rs line 242). -/
def slipAngleRear (c : CarConfig) (s : CarState) : ℝ :=
  atan2 ((localVelocity s).y + yawSpeedRear c s) |(localVelocity s).x|

/-- `brake` (src/main.rs lines 244-247). -/
def brakeTotal (i : CarInputs) (c : CarConfig) : ℝ :=
  min (i.brake * c.brake_force + i.e_brake * c.e_brake_force) c.brake_force

/-- `throttle` (src/main.rs line 248). -/
def throttleForce (i : CarInputs) (c : CarConfig) : ℝ := i.throttle * c.engine_force

/-- `rear_torque` (src/main.rs line 250). -/
def rearTorque (i : CarInputs) (c : CarConfig) : ℝ := throttleForce i c / c.wheel_radius

/-- `front_grip` (src/main.rs lines 252-253). -/
def frontGrip (i : CarInputs) (c : CarConfig) : ℝ :=
  c.total_tire_grip_front * (1 - i.e_brake * (1 - c.e_brake_grip_ratio_front))

/-- `rear_grip` (src/main.rs lines 254-255). -/
def rearGrip (i : CarInputs) (c : CarConfig) : ℝ :=
  c.total_tire_grip_rear * (1 - i.e_brake * (1 - c.e_brake_grip_ratio_rear))

/-- The shared front-axle clamp call (src/main.rs lines 257-261 and 263-267:
both front corners clamp the same quantity against the same bounds). -/
def frontClamp (i : CarInputs) (c : CarConfig) (s : CarState) : Bool × ℝ :=
  clamp (-c.corner_stiffness_front * slipAngleFront c s) (-frontGrip i c) (frontGrip i c)

/-- The shared rear-axle clamp call (src/main.rs lines 271-275 and 277-281). -/
def rearClamp (i : CarInputs) (c : CarConfig) (s : CarState) : Bool × ℝ :=
  clamp (-c.corner_stiffness_rear * slipAngleRear c s) (-rearGrip i c) (rearGrip i c)

/-- `front_left_friction` (src/main.rs lines 257-262). -/
def frontLeftFriction (i : CarInputs) (c : CarConfig) (s : CarState) : ℝ :=
  (frontClamp i c s).2 * frontLeftWeight c s

/-- `front_right_friction` (src/main.rs lines 263-268). -/
def frontRightFriction (i : CarInputs) (c : CarConfig) (s : CarState) : ℝ :=
  (frontClamp i c s).2 * frontRightWeight c s

/-- `rear_left_friction` (src/main.rs lines 271-276). -/
def rearLeftFriction (i : CarInputs) (c : CarConfig) (s : CarState) : ℝ :=
  (rearClamp i c s).2 * rearLeftWeight c s

/-- `rear_right_friction` (src/main.rs lines 277-282). -/
def rearRightFriction (i : CarInputs) (c : CarConfig) (s : CarState) : ℝ :=
  (rearClamp i c s).2 * rearRightWeight c s

/-- `front_friction` (src/main.rs line 269). -/
def frontFriction (i : CarInputs) (c : CarConfig) (s : CarState) : ℝ :=
  0.5 * (frontLeftFriction i c s + frontRightFriction i c s)

/-- `rear_friction` (src/main.rs line 283). -/
def rearFriction (i : CarInputs) (c : CarConfig) (s : CarState) : ℝ :=
  0.5 * (rearLeftFriction i c s + rearRightFriction i c s)

/-- `traction_force_x` (src/main.rs line 285). -/
def tractionForceX (i : CarInputs) (c : CarConfig) (s : CarState) : ℝ :=
  rearTorque i c - brakeTotal i c * signum (localVelocity s).x

/-- `drag_force` (src/main.rs lines 288-289). -/
def dragForce (c : CarConfig) (s : CarState) : Vec2 :=
  -c.roll_resistance * localVelocity s
    - c.air_resistance * (localVelocity s * (localVelocity s).absV)

/-- `total_force_x` (src/main.rs line 291). -/
def totalForceX (i : CarInputs) (c : CarConfig) (s : CarState) : ℝ :=
  tractionForceX i c s + (dragForce c s).x

/-- `total_force_y` after the high-speed stability scaling
(src/main.rs lines 286, 292-299; `traction_force_y` is the literal 0). -/
def totalForceY (i : CarInputs) (c : CarConfig) (s : CarState) : ℝ :=
  let raw := 0 + (dragForce c s).y + Real.cos s.steer_angle * frontFriction i c s
    + rearFriction i c s
  if s.velocity.length > 10 then
    raw * ((s.velocity.length + 1) / (21 - c.speed_turning_stability))
  else raw

/-- The result of one dynamics tick: the mutated state and the emitted stats. -/
structure StepResult where
  state : CarState
  stats : CarStats

/-- Transcription of `physics_step` (src/main.rs lines 173-363): forces are the
helper definitions above; this assembles the in-place state mutations (velocity
integration, the low-speed latch at lines 313-320, yaw integration, the yaw
damping at lines 332-337, position integration) and the `CarStats` snapshot. -/
def physicsStep (dt_seconds : ℝ) (i : CarInputs) (c : CarConfig) (s : CarState) :
    StepResult :=
  let inertia := c.mass * c.inertia_scale
  let local_acceleration : Vec2 :=
    ⟨totalForceX i c s / c.mass, totalForceY i c s / c.mass⟩
  let acceleration := rotate s.heading local_acceleration
  let velocity := s.velocity + acceleration * dt_seconds
  let absolute_velocity := velocity.length
  let angular_torque := frontFriction i c s * correctedFrontAxle c
    - rearFriction i c s * correctedRearAxle c
  let latch := absolute_velocity < 0.5 ∧ throttleForce i c < f32Epsilon
  let local_acceleration2 := if latch then 0 else local_acceleration
  let absolute_velocity2 := if latch then 0 else absolute_velocity
  let velocity2 := if latch then 0 else velocity
  let angular_torque2 := if latch then 0 else angular_torque
  let yaw_rate1 := if latch then 0 else s.yaw_rate
  let acceleration2 := if latch then 0 else acceleration
  let speed_kph := absolute_velocity2 * 3.6
  let speed_mph := speed_kph * 0.621371
  let angular_acceleration := angular_torque2 / inertia
  let yaw_rate2 := yaw_rate1 + angular_acceleration * dt_seconds
  let yaw_rate3 :=
    if ((absolute_velocity2 < 1 ∨ |local_acceleration2.y| < 2.5)
          ∧ |s.steer_angle| < f32Epsilon)
        ∨ speed_kph < 0.2 then 0
    else yaw_rate2
  let heading := s.heading + yaw_rate3 * dt_seconds
  let position := s.position + velocity2 * dt_seconds
  { state :=
      { heading := heading
        position := position
        velocity := velocity2
        acceleration := acceleration2
        local_acceleration := local_acceleration2
        yaw_rate := yaw_rate3
        steer := s.steer
        steer_angle := s.steer_angle }
    stats :=
      { fps := rustAsI32 (1 / dt_seconds)
        speed_mps := absolute_velocity2
        speed_kph := speed_kph
        speed_mph := speed_mph
        steering := s.steer
        steer_angle := s.steer_angle
        front_left_active_weight := frontLeftWeight c s
        front_right_active_weight := frontRightWeight c s
        rear_left_active_weight := rearLeftWeight c s
        rear_right_active_weight := rearRightWeight c s
        front_left_friction := frontLeftFriction i c s
        front_right_friction := frontRightFriction i c s
        rear_left_friction := rearLeftFriction i c s
        rear_right_friction := rearRightFriction i c s
        front_left_is_skidding := (frontClamp i c s).1
        front_right_is_skidding := (frontClamp i c s).1
        rear_left_is_skidding := (rearClamp i c s).1
        rear_right_is_skidding := (rearClamp i c s).1
        weight_position := weightPosition c s } }

/-- `target_steer` (src/main.rs lines 631-633). -/
def targetSteer (c : CarConfig) (input_steer speed : ℝ) : ℝ :=
  input_steer * (1 - min (speed / c.speed_steer_correction) 1)

/-- The rate-limited steering move (src/main.rs lines 635-643). -/
def steerUpdate (c : CarConfig) (dt target steer : ℝ) : ℝ :=
  let max_steer_offset := c.steer_speed * dt
  if target > steer + max_steer_offset then steer + max_steer_offset
  else if target < steer - max_steer_offset then steer - max_steer_offset
  else target

/-- One full tick of the `step` system for one car (src/main.rs lines 631-647):
steering update, then `steer_angle = max_steer * steer`, then `physics_step`. -/
def stepTick (dt input_steer : ℝ) (i : CarInputs) (c : CarConfig) (s : CarState) :
    StepResult :=
  let steer := steerUpdate c dt (targetSteer c input_steer s.velocity.length) s.steer
  let s1 := { s with steer := steer, steer_angle := c.max_steer * steer }
  physicsStep dt i c s1

/-- `n` full ticks of `stepTick` with the same dt and inputs each tick. -/
def runTicks (dt input_steer : ℝ) (i : CarInputs) (c : CarConfig) :
    Nat → CarState → CarState
  | 0, s => s
  | n + 1, s => runTicks dt input_steer i c n (stepTick dt input_steer i c s).state

/-- Transcription of `CarConfigLoader::load` (src/main.rs lines 120-136) after
the bytes have parsed as a `CarConfig` (UTF-8 decoding and `serde_json` parsing
are external library behaviour): the parsed config is set as the asset
unconditionally; no field of the config is inspected or validated. -/
def carConfigLoaderAccept (c : CarConfig) : Except String CarConfig := Except.ok c

/- ===== Skid-trail model (src/main.rs lines 365-374, 460-484, 778-877) ===== -/

/-- Three-dimensional vector of reals, modelling `bevy::math::Vec3` and the
`[f32; 3]` vertex produced by `into_array`. -/
@[ext]
structure Vec3R where
  x : ℝ
  y : ℝ
  z : ℝ

instance : Zero Vec3R := ⟨⟨0, 0, 0⟩⟩
instance : Add Vec3R := ⟨fun a b => ⟨a.x + b.x, a.y + b.y, a.z + b.z⟩⟩
instance : Sub Vec3R := ⟨fun a b => ⟨a.x - b.x, a.y - b.y, a.z - b.z⟩⟩
instance : HMul ℝ Vec3R Vec3R := ⟨fun c v => ⟨c * v.x, c * v.y, c * v.z⟩⟩

/-- `Vec3::length`. -/
def Vec3R.length (v : Vec3R) : ℝ := Real.sqrt (v.x ^ 2 + v.y ^ 2 + v.z ^ 2)

/-- `Vec3::normalize_or_zero`: the unit vector in the same direction, or zero
when the vector cannot be normalized (zero length). -/
def Vec3R.normalizeOrZero (v : Vec3R) : Vec3R :=
  if v.length = 0 then 0 else (1 / v.length) * v

/-- A mesh as built by `skid` (src/main.rs lines 812-824): parallel position,
normal and uv attribute buffers. -/
structure SkidMesh where
  positions : List Vec3R
  normals : List Vec3R
  uvs : List (ℝ × ℝ)

/-- `Assets<Mesh>` restricted to skid meshes: handles are naturals. -/
abbrev MeshStore := List (Nat × SkidMesh)

/-- `meshes.get_mut(handle)` as a pure lookup. -/
def lookupMesh (h : Nat) : MeshStore → Option SkidMesh
  | [] => none
  | (k, m) :: rest => if k = h then some m else lookupMesh h rest

/-- In-place mutation of the mesh stored under a handle. -/
def updateMesh (h : Nat) (f : SkidMesh → SkidMesh) : MeshStore → MeshStore
  | [] => []
  | (k, m) :: rest =>
      if k = h then (k, f m) :: rest else (k, m) :: updateMesh h f rest

/-- The world state the skid systems touch: the mesh assets, the handle
allocator, and the entities spawned with the `Skid` marker (identified here by
the mesh handle their `SkidBundle` holds). -/
structure SkidWorld where
  meshes : MeshStore
  nextHandle : Nat
  skidEntities : List Nat

/-- `CurrentSkid` (src/main.rs lines 371-374): the wheel's possibly-open trail. -/
structure CurrentSkid where
  mesh : Option Nat

/-- The per-wheel data the `skid` system reads each tick (src/main.rs
lines 788-798): the slip flag, the current and previous global translation,
and the global scale's y component. -/
structure TireSkidInput where
  slipping : Bool
  current_position : Vec3R
  previous_position : Vec3R
  scale_y : ℝ

/-- The two ribbon vertices of one tick (src/main.rs lines 794-801). -/
def skidVertexPair (inp : TireSkidInput) : Vec3R × Vec3R :=
  let offset := inp.current_position - inp.previous_position
  let sideways := (0.5 * inp.scale_y) *
    Vec3R.normalizeOrZero ⟨-offset.y, offset.x, 0⟩
  (inp.current_position - sideways, inp.current_position + sideways)

/-- Transcription of one wheel's pass through the `skid` system
(src/main.rs lines 778-862): the four-way match on (is_skidding, open mesh). -/
def skidSystem (inp : TireSkidInput) (skid : CurrentSkid) (w : SkidWorld) :
    CurrentSkid × SkidWorld :=
  let p1 := (skidVertexPair inp).1
  let p2 := (skidVertexPair inp).2
  let n1 : Vec3R := ⟨0, 0, 1⟩
  let uv1 : ℝ × ℝ := (0, 0)
  match inp.slipping, skid.mesh.bind fun h => (lookupMesh h w.meshes).map fun m => (h, m) with
  | true, none =>
      let mesh : SkidMesh := ⟨[p1, p2], [n1, n1], [uv1, uv1]⟩
      let handle := w.nextHandle
      (⟨some handle⟩,
        { meshes := w.meshes ++ [(handle, mesh)]
          nextHandle := handle + 1
          skidEntities := w.skidEntities ++ [handle] })
  | true, some (h, _) =>
      (skid,
        { w with
            meshes := updateMesh h (fun m =>
              ⟨m.positions ++ [p1, p2], m.normals ++ [n1, n1], m.uvs ++ [uv1, uv1]⟩)
              w.meshes })
  | false, none => (skid, w)
  | false, some _ => (⟨none⟩, w)

/-- Transcription of `cleanup_skids` (src/main.rs lines 865-877): when the clear
key is pressed, every entity with the `Skid` marker is despawned and its mesh
removed from the assets. -/
def cleanupSkids (pressed : Bool) (w : SkidWorld) : SkidWorld :=
  if pressed then
    { meshes := w.meshes.filter fun p => decide (p.1 ∉ w.skidEntities)
      nextHandle := w.nextHandle
      skidEntities := [] }
  else w

/-- `n` consecutive passes of one wheel through the `skid` system, tick `k`
reading per-tick data `f k`. -/
def runSkidTicks (f : Nat → TireSkidInput) :
    Nat → CurrentSkid → SkidWorld → CurrentSkid × SkidWorld
  | 0, sk, w => (sk, w)
  | n + 1, sk, w =>
      let r := skidSystem (f 0) sk w
      runSkidTicks (fun k => f (k + 1)) n r.1 r.2

/-- Configuration for the C2 counterexample: default geometry with front
cornering stiffness 1 and front tire grip 2. -/
def cfgC2 : CarConfig :=
  { defaultConfig with corner_stiffness_front := 1, total_tire_grip_front := 2 }

/-- State for the C2 counterexample: at rest with steer angle 2 radians, so the
front slip term sits exactly on the clamp boundary. -/
def stateC2 : CarState := { zeroState with steer_angle := 2 }

/-- A configuration with non-positive mass, for the C3 counterexample. -/
def badConfig : CarConfig := { defaultConfig with mass := -1 }

/-- The longitudinal traction force exactly as the specification words it:
throttle times engine force divided by wheel radius, minus the braking term
`min(brake * brake_force + handbrake * handbrake_force, brake_force)` signed by
the local longitudinal direction. -/
def tractionForceXSpec (i : CarInputs) (c : CarConfig) (s : CarState) : ℝ :=
  i.throttle * c.engine_force / c.wheel_radius
    - min (i.brake * c.brake_force + i.e_brake * c.e_brake_force) c.brake_force
      * signum (localVelocity s).x

/-- The per-tick data for the concrete skid scenarios: slipping in place. -/
def skidInputC4 : TireSkidInput := ⟨true, 0, 0, 1⟩

/-- The empty world before any trail exists. -/
def worldC4 : SkidWorld := ⟨[], 0, []⟩

/- ===== Basic lemmas about the embedded primitives ===== -/

@[simp] theorem Vec2.zero_x : (0 : Vec2).x = 0 := rfl
@[simp] theorem Vec2.zero_y : (0 : Vec2).y = 0 := rfl
@[simp] theorem Vec2.add_x (a b : Vec2) : (a + b).x = a.x + b.x := rfl
@[simp] theorem Vec2.add_y (a b : Vec2) : (a + b).y = a.y + b.y := rfl
@[simp] theorem Vec2.sub_x (a b : Vec2) : (a - b).x = a.x - b.x := rfl
@[simp] theorem Vec2.sub_y (a b : Vec2) : (a - b).y = a.y - b.y := rfl
@[simp] theorem Vec2.neg_x (a : Vec2) : (-a).x = -a.x := rfl
@[simp] theorem Vec2.neg_y (a : Vec2) : (-a).y = -a.y := rfl
@[simp] theorem Vec2.smul_x (c : ℝ) (v : Vec2) : (c * v).x = c * v.x := rfl
@[simp] theorem Vec2.smul_y (c : ℝ) (v : Vec2) : (c * v).y = c * v.y := rfl
@[simp] theorem Vec2.muls_x (v : Vec2) (c : ℝ) : (v * c).x = v.x * c := rfl
@[simp] theorem Vec2.muls_y (v : Vec2) (c : ℝ) : (v * c).y = v.y * c := rfl
@[simp] theorem Vec2.mulv_x (a b : Vec2) : (a * b).x = a.x * b.x := rfl
@[simp] theorem Vec2.mulv_y (a b : Vec2) : (a * b).y = a.y * b.y := rfl
@[simp] theorem Vec2.div_x (v : Vec2) (c : ℝ) : (v / c).x = v.x / c := rfl
@[simp] theorem Vec2.div_y (v : Vec2) (c : ℝ) : (v / c).y = v.y / c := rfl
@[simp] theorem Vec2.mk_x (a b : ℝ) : (Vec2.mk a b).x = a := rfl
@[simp] theorem Vec2.mk_y (a b : ℝ) : (Vec2.mk a b).y = b := rfl
@[simp] theorem Vec2.absV_x (v : Vec2) : v.absV.x = |v.x| := rfl
@[simp] theorem Vec2.absV_y (v : Vec2) : v.absV.y = |v.y| := rfl

@[simp] theorem Vec2.mk_zero : (Vec2.mk 0 0) = 0 := rfl

@[simp] theorem Vec2.add_zero (v : Vec2) : v + 0 = v := by
  apply Vec2.ext <;> simp

@[simp] theorem Vec2.zero_add (v : Vec2) : 0 + v = v := by
  apply Vec2.ext <;> simp

@[simp] theorem Vec2.zero_muls (c : ℝ) : (0 : Vec2) * c = 0 := by
  apply Vec2.ext <;> simp

@[simp] theorem Vec2.smul_zero (c : ℝ) : c * (0 : Vec2) = 0 := by
  apply Vec2.ext <;> simp

@[simp] theorem Vec2.mulv_zero (v : Vec2) : v * (0 : Vec2) = 0 := by
  apply Vec2.ext <;> simp

@[simp] theorem Vec2.zero_mulv (v : Vec2) : (0 : Vec2) * v = 0 := by
  apply Vec2.ext <;> simp

@[simp] theorem Vec2.absV_zero : (0 : Vec2).absV = 0 := by
  apply Vec2.ext <;> simp

@[simp] theorem Vec2.neg_zero : -(0 : Vec2) = 0 := by
  apply Vec2.ext <;> simp

@[simp] theorem Vec2.sub_zero (v : Vec2) : v - 0 = v := by
  apply Vec2.ext <;> simp

@[simp] theorem Vec2.length_zero : (0 : Vec2).length = 0 := by
  simp [Vec2.length]

@[simp] theorem rotate_zero_vec (θ : ℝ) : rotate θ 0 = 0 := by
  apply Vec2.ext <;> simp [rotate]

@[simp] theorem signum_zero : signum 0 = 1 := by simp [signum]

theorem f32Epsilon_pos : 0 < f32Epsilon := by norm_num [f32Epsilon]

@[simp] theorem atan2_zero_zero : atan2 0 0 = 0 := by
  simp [atan2]

/- ===== Shared lemmas ===== -/

@[simp] theorem stats_front_left_weight (dt : ℝ) (i : CarInputs) (c : CarConfig)
    (s : CarState) :
    (physicsStep dt i c s).stats.front_left_active_weight = frontLeftWeight c s := rfl

@[simp] theorem stats_front_right_weight (dt : ℝ) (i : CarInputs) (c : CarConfig)
    (s : CarState) :
    (physicsStep dt i c s).stats.front_right_active_weight = frontRightWeight c s := rfl

@[simp] theorem stats_rear_left_weight (dt : ℝ) (i : CarInputs) (c : CarConfig)
    (s : CarState) :
    (physicsStep dt i c s).stats.rear_left_active_weight = rearLeftWeight c s := rfl

@[simp] theorem stats_rear_right_weight (dt : ℝ) (i : CarInputs) (c : CarConfig)
    (s : CarState) :
    (physicsStep dt i c s).stats.rear_right_active_weight = rearRightWeight c s := rfl

@[simp] theorem stats_front_left_friction (dt : ℝ) (i : CarInputs) (c : CarConfig)
    (s : CarState) :
    (physicsStep dt i c s).stats.front_left_friction = frontLeftFriction i c s := rfl

@[simp] theorem stats_front_right_friction (dt : ℝ) (i : CarInputs) (c : CarConfig)
    (s : CarState) :
    (physicsStep dt i c s).stats.front_right_friction = frontRightFriction i c s := rfl

@[simp] theorem stats_rear_left_friction (dt : ℝ) (i : CarInputs) (c : CarConfig)
    (s : CarState) :
    (physicsStep dt i c s).stats.rear_left_friction = rearLeftFriction i c s := rfl

@[simp] theorem stats_rear_right_friction (dt : ℝ) (i : CarInputs) (c : CarConfig)
    (s : CarState) :
    (physicsStep dt i c s).stats.rear_right_friction = rearRightFriction i c s := rfl

@[simp] theorem stats_front_left_skid (dt : ℝ) (i : CarInputs) (c : CarConfig)
    (s : CarState) :
    (physicsStep dt i c s).stats.front_left_is_skidding = (frontClamp i c s).1 := rfl

@[simp] theorem stats_front_right_skid (dt : ℝ) (i : CarInputs) (c : CarConfig)
    (s : CarState) :
    (physicsStep dt i c s).stats.front_right_is_skidding = (frontClamp i c s).1 := rfl

@[simp] theorem stats_rear_left_skid (dt : ℝ) (i : CarInputs) (c : CarConfig)
    (s : CarState) :
    (physicsStep dt i c s).stats.rear_left_is_skidding = (rearClamp i c s).1 := rfl

@[simp] theorem stats_rear_right_skid (dt : ℝ) (i : CarInputs) (c : CarConfig)
    (s : CarState) :
    (physicsStep dt i c s).stats.rear_right_is_skidding = (rearClamp i c s).1 := rfl

@[simp] theorem stats_weight_position (dt : ℝ) (i : CarInputs) (c : CarConfig)
    (s : CarState) :
    (physicsStep dt i c s).stats.weight_position = weightPosition c s := rfl

theorem clamp_snd_abs_le {g : ℝ} (t : ℝ) (hg : 0 ≤ g) : |(clamp t (-g) g).2| ≤ g := by
  unfold clamp
  split_ifs with h1 h2
  · simp [abs_of_nonneg hg]
  · simp [abs_of_nonneg hg]
  · push_neg at h1 h2
    exact abs_le.mpr ⟨h1, h2⟩

theorem clamp_fst_abs_eq {g : ℝ} (t : ℝ) (hg : 0 ≤ g)
    (h : (clamp t (-g) g).1 = true) : |(clamp t (-g) g).2| = g := by
  unfold clamp at h ⊢
  split_ifs at h ⊢ with h1 h2
  · simp [abs_of_nonneg hg]
  · simp [abs_of_nonneg hg]

theorem clampFriction_bound {g : ℝ} (t w : ℝ) (hg : 0 ≤ g) :
    |(clamp t (-g) g).2 * w| ≤ g * |w|
      ∧ ((clamp t (-g) g).1 = true → |(clamp t (-g) g).2 * w| = g * |w|) := by
  constructor
  · rw [abs_mul]
    exact mul_le_mul_of_nonneg_right (clamp_snd_abs_le t hg) (abs_nonneg w)
  · intro h
    rw [abs_mul, clamp_fst_abs_eq t hg h]

/- ===== C1: load conservation ===== -/

/-- C1 (counterexample): at the default configuration, zero state, zero inputs
and dt = 1/60, the sum of the four corner loads (29430) differs from the sum of
the front and rear axle loads (14715) by 14715 — far beyond floating-point
tolerance — so the claimed conservation identity fails. -/
theorem C1_load_conservation_counterexample :
    (physicsStep (1 / 60) zeroInputs defaultConfig zeroState).stats.front_left_active_weight
      + (physicsStep (1 / 60) zeroInputs defaultConfig zeroState).stats.front_right_active_weight
      + (physicsStep (1 / 60) zeroInputs defaultConfig zeroState).stats.rear_left_active_weight
      + (physicsStep (1 / 60) zeroInputs defaultConfig zeroState).stats.rear_right_active_weight
      ≠ weightFront defaultConfig zeroState + weightRear defaultConfig zeroState := by
  simp only [stats_front_left_weight, stats_front_right_weight, stats_rear_left_weight,
    stats_rear_right_weight]
  norm_num [frontLeftWeight, frontRightWeight, rearLeftWeight, rearRightWeight,
    weightFront, weightRear, transferX, transferY, axleWeightRatioFront,
    axleWeightRatioRear, correctedFrontAxle, correctedRearAxle, wheelBase,
    defaultConfig, zeroState]

/-- C1 (amended): every tick, for every configuration and state, the sum of the
four corner loads equals TWICE the sum of the front and rear axle loads — each
corner carries the full axle load plus or minus the lateral transfer, with no
division by two per side. -/
theorem C1_corner_loads_twice_axle_loads (dt : ℝ) (i : CarInputs) (c : CarConfig)
    (s : CarState) :
    (physicsStep dt i c s).stats.front_left_active_weight
      + (physicsStep dt i c s).stats.front_right_active_weight
      + (physicsStep dt i c s).stats.rear_left_active_weight
      + (physicsStep dt i c s).stats.rear_right_active_weight
      = 2 * (weightFront c s + weightRear c s) := by
  simp only [stats_front_left_weight, stats_front_right_weight, stats_rear_left_weight,
    stats_rear_right_weight, frontLeftWeight, frontRightWeight, rearLeftWeight,
    rearRightWeight]
  ring

/- ===== C9: load-weighted bias point ===== -/

/-- C9: the load-weighted bias point emitted by the dynamics step equals the
sum of corner load times corner position offset divided by the total corner
load when that total exceeds epsilon, and is the origin (no division performed)
when the total is at most epsilon. -/
theorem C9_weight_position_guarded (dt : ℝ) (i : CarInputs) (c : CarConfig)
    (s : CarState) :
    (totalWeight c s > f32Epsilon →
      (physicsStep dt i c s).stats.weight_position
        = weightPositionSum c s / totalWeight c s)
    ∧ (totalWeight c s ≤ f32Epsilon →
      (physicsStep dt i c s).stats.weight_position = 0) := by
  constructor <;> intro h
  · simp only [stats_weight_position, weightPosition, if_pos h]
  · simp only [stats_weight_position, weightPosition, if_neg (not_lt.mpr h)]

/-- C9 (witness): at the default configuration and zero state the total corner
load is 29430, which exceeds epsilon, and the bias point is the weighted sum
divided by that total. -/
theorem C9_weight_position_guarded_witness :
    totalWeight defaultConfig zeroState > f32Epsilon
      ∧ (physicsStep (1 / 60) zeroInputs defaultConfig zeroState).stats.weight_position
        = weightPositionSum defaultConfig zeroState / totalWeight defaultConfig zeroState := by
  have h : totalWeight defaultConfig zeroState > f32Epsilon := by
    norm_num [totalWeight, frontLeftWeight, frontRightWeight, rearLeftWeight,
      rearRightWeight, weightFront, weightRear, transferX, transferY,
      axleWeightRatioFront, axleWeightRatioRear, correctedFrontAxle,
      correctedRearAxle, wheelBase, defaultConfig, zeroState, f32Epsilon]
  exact ⟨h, (C9_weight_position_guarded (1 / 60) zeroInputs defaultConfig zeroState).1 h⟩

/- ===== C2: grip ceiling ===== -/

/-- C2 (counterexample): at rest with steer angle 2, stiffness 1 and grip 2,
the front-left lateral force attains the grip ceiling times the corner load
with equality, yet the slip flag is false — the clamp only flags strict
exceedance — so "the slip flag is true exactly when the bound is attained with
equality" fails. -/
theorem C2_grip_ceiling_counterexample :
    (physicsStep (1 / 60) zeroInputs cfgC2 stateC2).stats.front_left_is_skidding = false
      ∧ |(physicsStep (1 / 60) zeroInputs cfgC2 stateC2).stats.front_left_friction|
        = frontGrip zeroInputs cfgC2
          * (physicsStep (1 / 60) zeroInputs cfgC2 stateC2).stats.front_left_active_weight := by
  have hlv : localVelocity stateC2 = 0 := by
    simp [localVelocity, stateC2, zeroState]
  have hslip : slipAngleFront cfgC2 stateC2 = -2 := by
    rw [slipAngleFront, hlv]
    norm_num [yawSpeedFront, stateC2, zeroState]
  have hgrip : frontGrip zeroInputs cfgC2 = 2 := by
    norm_num [frontGrip, cfgC2, defaultConfig, zeroInputs]
  have hstiff : cfgC2.corner_stiffness_front = 1 := by
    norm_num [cfgC2, defaultConfig]
  have hclamp : frontClamp zeroInputs cfgC2 stateC2 = (false, 2) := by
    rw [frontClamp, hslip, hgrip, hstiff]
    norm_num [clamp]
  have hweight : frontLeftWeight cfgC2 stateC2 = 7357.5 := by
    norm_num [frontLeftWeight, weightFront, transferX, transferY,
      axleWeightRatioFront, correctedFrontAxle, correctedRearAxle, wheelBase,
      cfgC2, defaultConfig, stateC2, zeroState]
  constructor
  · rw [stats_front_left_skid, hclamp]
  · rw [stats_front_left_friction, stats_front_left_weight, frontLeftFriction,
      hclamp, hgrip, hweight]
    norm_num

/-- C2 (amended): for every tick and corner, provided the axle grip ceilings
are nonnegative (the precondition of `clamp`'s assertion), the magnitude of the
corner's lateral force is at most the grip ceiling times the absolute value of
the corner's load, and when the slip flag is true this bound holds with
equality.  (The converse fails: the flag marks strict exceedance of the clamp
bounds, so equality can be attained with the flag false.) -/
theorem C2_grip_ceiling_bound (dt : ℝ) (i : CarInputs) (c : CarConfig)
    (s : CarState) (hf : 0 ≤ frontGrip i c) (hr : 0 ≤ rearGrip i c) :
    (|(physicsStep dt i c s).stats.front_left_friction|
        ≤ frontGrip i c * |(physicsStep dt i c s).stats.front_left_active_weight|
      ∧ ((physicsStep dt i c s).stats.front_left_is_skidding = true →
          |(physicsStep dt i c s).stats.front_left_friction|
            = frontGrip i c * |(physicsStep dt i c s).stats.front_left_active_weight|))
    ∧ (|(physicsStep dt i c s).stats.front_right_friction|
        ≤ frontGrip i c * |(physicsStep dt i c s).stats.front_right_active_weight|
      ∧ ((physicsStep dt i c s).stats.front_right_is_skidding = true →
          |(physicsStep dt i c s).stats.front_right_friction|
            = frontGrip i c * |(physicsStep dt i c s).stats.front_right_active_weight|))
    ∧ (|(physicsStep dt i c s).stats.rear_left_friction|
        ≤ rearGrip i c * |(physicsStep dt i c s).stats.rear_left_active_weight|
      ∧ ((physicsStep dt i c s).stats.rear_left_is_skidding = true →
          |(physicsStep dt i c s).stats.rear_left_friction|
            = rearGrip i c * |(physicsStep dt i c s).stats.rear_left_active_weight|))
    ∧ (|(physicsStep dt i c s).stats.rear_right_friction|
        ≤ rearGrip i c * |(physicsStep dt i c s).stats.rear_right_active_weight|
      ∧ ((physicsStep dt i c s).stats.rear_right_is_skidding = true →
          |(physicsStep dt i c s).stats.rear_right_friction|
            = rearGrip i c * |(physicsStep dt i c s).stats.rear_right_active_weight|)) := by
  simp only [stats_front_left_friction, stats_front_right_friction,
    stats_rear_left_friction, stats_rear_right_friction, stats_front_left_weight,
    stats_front_right_weight, stats_rear_left_weight, stats_rear_right_weight,
    stats_front_left_skid, stats_front_right_skid, stats_rear_left_skid,
    stats_rear_right_skid, frontLeftFriction, frontRightFriction,
    rearLeftFriction, rearRightFriction, frontClamp, rearClamp]
  exact ⟨clampFriction_bound _ _ hf, clampFriction_bound _ _ hf,
    clampFriction_bound _ _ hr, clampFriction_bound _ _ hr⟩

/-- C2 (witness): at the default configuration the grip ceilings are 2.5 ≥ 0
and the front-left bound holds at the zero state. -/
theorem C2_grip_ceiling_bound_witness :
    0 ≤ frontGrip zeroInputs defaultConfig ∧ 0 ≤ rearGrip zeroInputs defaultConfig
      ∧ |(physicsStep (1 / 60) zeroInputs defaultConfig zeroState).stats.front_left_friction|
        ≤ frontGrip zeroInputs defaultConfig
          * |(physicsStep (1 / 60) zeroInputs defaultConfig zeroState).stats.front_left_active_weight| := by
  have hf : 0 ≤ frontGrip zeroInputs defaultConfig := by
    norm_num [frontGrip, zeroInputs, defaultConfig]
  have hr : 0 ≤ rearGrip zeroInputs defaultConfig := by
    norm_num [rearGrip, zeroInputs, defaultConfig]
  exact ⟨hf, hr,
    (C2_grip_ceiling_bound (1 / 60) zeroInputs defaultConfig zeroState hf hr).1.1⟩

/- ===== C3: configuration validation ===== -/

/-- C3 (counterexample): a configuration whose mass is not strictly positive is
accepted unchanged at configuration-acceptance time — the loader never returns
an error, so the claimed InvalidConfiguration rejection does not exist. -/
theorem C3_no_validation_counterexample :
    badConfig.mass ≤ 0 ∧ carConfigLoaderAccept badConfig = Except.ok badConfig := by
  constructor
  · norm_num [badConfig]
  · rfl

/-- C3 (amended): configuration acceptance performs no validation: every parsed
configuration — including ones with non-positive mass, inertia scale, wheel
radius, or axle-distance sums — is accepted as the loaded asset; no
InvalidConfiguration error exists and nothing is rejected before simulation. -/
theorem C3_loader_accepts_everything (c : CarConfig) :
    carConfigLoaderAccept c = Except.ok c := rfl

/- ===== C5: idempotence of rest ===== -/

theorem localVelocity_zero : localVelocity zeroState = 0 := by
  simp [localVelocity, zeroState]

theorem transferX_zero (c : CarConfig) : transferX c zeroState = 0 := by
  simp [transferX, zeroState]

theorem transferY_zero (c : CarConfig) : transferY c zeroState = 0 := by
  simp [transferY, zeroState]

theorem slipAngleFront_zero (c : CarConfig) : slipAngleFront c zeroState = 0 := by
  rw [slipAngleFront, localVelocity_zero]
  simp [yawSpeedFront, zeroState]

theorem slipAngleRear_zero (c : CarConfig) : slipAngleRear c zeroState = 0 := by
  rw [slipAngleRear, localVelocity_zero]
  simp [yawSpeedRear, zeroState]

theorem brakeTotal_zero (c : CarConfig) (hbf : 0 ≤ c.brake_force) :
    brakeTotal zeroInputs c = 0 := by
  simp only [brakeTotal, zeroInputs]
  norm_num
  exact hbf

theorem throttleForce_zero (c : CarConfig) : throttleForce zeroInputs c = 0 := by
  simp [throttleForce, zeroInputs]

theorem rearTorque_zero (c : CarConfig) : rearTorque zeroInputs c = 0 := by
  simp [rearTorque, throttleForce_zero]

theorem frontGrip_zeroInputs (c : CarConfig) :
    frontGrip zeroInputs c = c.total_tire_grip_front := by
  simp [frontGrip, zeroInputs]

theorem rearGrip_zeroInputs (c : CarConfig) :
    rearGrip zeroInputs c = c.total_tire_grip_rear := by
  simp [rearGrip, zeroInputs]

theorem clamp_zero_mid {g : ℝ} (hg : 0 ≤ g) : clamp 0 (-g) g = (false, 0) := by
  unfold clamp
  rw [if_neg (not_lt.mpr (by linarith : -g ≤ 0)), if_neg (not_lt.mpr hg)]

theorem frontClamp_rest (c : CarConfig) (hgf : 0 ≤ c.total_tire_grip_front) :
    frontClamp zeroInputs c zeroState = (false, 0) := by
  rw [frontClamp, slipAngleFront_zero, frontGrip_zeroInputs, mul_zero]
  exact clamp_zero_mid hgf

theorem rearClamp_rest (c : CarConfig) (hgr : 0 ≤ c.total_tire_grip_rear) :
    rearClamp zeroInputs c zeroState = (false, 0) := by
  rw [rearClamp, slipAngleRear_zero, rearGrip_zeroInputs, mul_zero]
  exact clamp_zero_mid hgr

theorem frontFriction_rest (c : CarConfig) (hgf : 0 ≤ c.total_tire_grip_front) :
    frontFriction zeroInputs c zeroState = 0 := by
  simp [frontFriction, frontLeftFriction, frontRightFriction, frontClamp_rest c hgf]

theorem rearFriction_rest (c : CarConfig) (hgr : 0 ≤ c.total_tire_grip_rear) :
    rearFriction zeroInputs c zeroState = 0 := by
  simp [rearFriction, rearLeftFriction, rearRightFriction, rearClamp_rest c hgr]

theorem tractionForceX_rest (c : CarConfig) (hbf : 0 ≤ c.brake_force) :
    tractionForceX zeroInputs c zeroState = 0 := by
  rw [tractionForceX, rearTorque_zero, brakeTotal_zero c hbf]
  simp

theorem dragForce_rest (c : CarConfig) : dragForce c zeroState = 0 := by
  rw [dragForce, localVelocity_zero]
  simp

theorem totalForceX_rest (c : CarConfig) (hbf : 0 ≤ c.brake_force) :
    totalForceX zeroInputs c zeroState = 0 := by
  rw [totalForceX, tractionForceX_rest c hbf, dragForce_rest]
  simp

theorem totalForceY_rest (c : CarConfig) (hgf : 0 ≤ c.total_tire_grip_front)
    (hgr : 0 ≤ c.total_tire_grip_rear) :
    totalForceY zeroInputs c zeroState = 0 := by
  rw [totalForceY, dragForce_rest, frontFriction_rest c hgf, rearFriction_rest c hgr]
  norm_num [zeroState]

theorem physicsStep_rest (dt : ℝ) (c : CarConfig) (hbf : 0 ≤ c.brake_force)
    (hgf : 0 ≤ c.total_tire_grip_front) (hgr : 0 ≤ c.total_tire_grip_rear) :
    (physicsStep dt zeroInputs c zeroState).state = zeroState := by
  rw [physicsStep]
  simp only [totalForceX_rest c hbf, totalForceY_rest c hgf hgr,
    frontFriction_rest c hgf, rearFriction_rest c hgr, throttleForce_zero]
  norm_num [zeroState, f32Epsilon]

theorem targetSteer_zero_cmd (c : CarConfig) (speed : ℝ) : targetSteer c 0 speed = 0 := by
  simp [targetSteer]

theorem steerUpdate_rest (c : CarConfig) (dt : ℝ) (hmd : 0 ≤ c.steer_speed * dt) :
    steerUpdate c dt 0 0 = 0 := by
  simp only [steerUpdate]
  rw [if_neg (not_lt.mpr (by linarith : (0 : ℝ) ≤ 0 + c.steer_speed * dt)),
    if_neg (not_lt.mpr (by linarith : 0 - c.steer_speed * dt ≤ (0 : ℝ)))]

theorem stepTick_rest (dt : ℝ) (c : CarConfig) (hss : 0 ≤ c.steer_speed)
    (hdt : 0 ≤ dt) (hbf : 0 ≤ c.brake_force) (hgf : 0 ≤ c.total_tire_grip_front)
    (hgr : 0 ≤ c.total_tire_grip_rear) :
    (stepTick dt 0 zeroInputs c zeroState).state = zeroState := by
  have h1 : steerUpdate c dt (targetSteer c 0 zeroState.velocity.length)
      zeroState.steer = 0 := by
    rw [targetSteer_zero_cmd]
    have hs : zeroState.steer = (0 : ℝ) := rfl
    rw [hs, steerUpdate_rest c dt (mul_nonneg hss hdt)]
  simp only [stepTick, h1, mul_zero]
  have h2 : ({ zeroState with steer := (0 : ℝ), steer_angle := (0 : ℝ) } : CarState)
      = zeroState := rfl
  rw [h2]
  exact physicsStep_rest dt c hbf hgf hgr

/-- C5: starting from the all-zero vehicle state and applying any number of
full ticks (steering update plus dynamics step) with zero throttle, brake,
handbrake and raw steer command — under the configuration sanity bounds of
nonnegative steering rate, brake force and tire grips, and positive dt — the
state remains exactly the all-zero state after every tick. -/
theorem C5_rest_is_fixed_point (dt : ℝ) (c : CarConfig) (hdt : 0 < dt)
    (hss : 0 ≤ c.steer_speed) (hbf : 0 ≤ c.brake_force)
    (hgf : 0 ≤ c.total_tire_grip_front) (hgr : 0 ≤ c.total_tire_grip_rear) :
    ∀ n : Nat, runTicks dt 0 zeroInputs c n zeroState = zeroState := by
  intro n
  induction n with
  | zero => rfl
  | succ n ih =>
    rw [runTicks, stepTick_rest dt c hss hdt.le hbf hgf hgr]
    exact ih

/-- C5 (witness): three ticks at dt = 1/60 with the default configuration
leave the zero state unchanged. -/
theorem C5_rest_is_fixed_point_witness :
    (0 : ℝ) < 1 / 60
      ∧ runTicks (1 / 60) 0 zeroInputs defaultConfig 3 zeroState = zeroState := by
  have hdt : (0 : ℝ) < 1 / 60 := by norm_num
  refine ⟨hdt, C5_rest_is_fixed_point (1 / 60) defaultConfig hdt ?_ ?_ ?_ ?_ 3⟩ <;>
    norm_num [defaultConfig]

/- ===== C6: steering rate bound ===== -/

/-- C6: for any raw steer command, speed and positive dt (and nonnegative
configured steering rate), the smoothed steer moves by at most
`steer_speed * dt` in one tick, stepping up by exactly that amount when the
target is above `current + max_delta`, stepping down by it when below
`current - max_delta`, and snapping to the target otherwise. -/
theorem C6_steering_rate_bound (c : CarConfig) (dt raw speed steer : ℝ)
    (hdt : 0 < dt) (hss : 0 ≤ c.steer_speed) :
    |steerUpdate c dt (targetSteer c raw speed) steer - steer| ≤ c.steer_speed * dt
      ∧ (targetSteer c raw speed > steer + c.steer_speed * dt →
          steerUpdate c dt (targetSteer c raw speed) steer = steer + c.steer_speed * dt)
      ∧ (targetSteer c raw speed < steer - c.steer_speed * dt →
          steerUpdate c dt (targetSteer c raw speed) steer = steer - c.steer_speed * dt)
      ∧ (steer - c.steer_speed * dt ≤ targetSteer c raw speed →
          targetSteer c raw speed ≤ steer + c.steer_speed * dt →
          steerUpdate c dt (targetSteer c raw speed) steer = targetSteer c raw speed) := by
  have hmd : 0 ≤ c.steer_speed * dt := mul_nonneg hss hdt.le
  simp only [steerUpdate]
  split_ifs with h1 h2
  · refine ⟨?_, fun _ => rfl, fun h => absurd h (by push_neg; linarith),
      fun _ hb => absurd h1 (by push_neg; linarith)⟩
    have : steer + c.steer_speed * dt - steer = c.steer_speed * dt := by ring
    rw [this, abs_of_nonneg hmd]
  · refine ⟨?_, fun h => absurd h h1, fun _ => rfl,
      fun ha _ => absurd h2 (by push_neg; linarith)⟩
    have : steer - c.steer_speed * dt - steer = -(c.steer_speed * dt) := by ring
    rw [this, abs_neg, abs_of_nonneg hmd]
  · push_neg at h1 h2
    exact ⟨abs_le.mpr ⟨by linarith, by linarith⟩,
      fun h => absurd h (by push_neg; exact h1),
      fun h => absurd h (by push_neg; exact h2),
      fun _ _ => rfl⟩

/-- C6 (witness): at the default configuration, dt = 1/60, full-left command
at rest and centred steering, the one-tick change is within
`steer_speed * dt`. -/
theorem C6_steering_rate_bound_witness :
    (0 : ℝ) < 1 / 60 ∧ 0 ≤ defaultConfig.steer_speed
      ∧ |steerUpdate defaultConfig (1 / 60) (targetSteer defaultConfig 1 0) 0 - 0|
        ≤ defaultConfig.steer_speed * (1 / 60) := by
  have hdt : (0 : ℝ) < 1 / 60 := by norm_num
  have hss : (0 : ℝ) ≤ defaultConfig.steer_speed := by norm_num [defaultConfig]
  exact ⟨hdt, hss, (C6_steering_rate_bound defaultConfig (1 / 60) 1 0 0 hdt hss).1⟩

/- ===== C7: longitudinal traction ===== -/

/-- C7: in every dynamics step the longitudinal traction force equals the
throttle input times engine force divided by wheel radius minus the braking
term `min(brake * brake_force + handbrake * handbrake_force, brake_force)`;
the braking term is capped at `brake_force` and opposes the current local
longitudinal direction of motion once the vehicle is moving. -/
theorem C7_traction_force (i : CarInputs) (c : CarConfig) (s : CarState) :
    tractionForceX i c s = tractionForceXSpec i c s
      ∧ brakeTotal i c ≤ c.brake_force
      ∧ (0 < (localVelocity s).x →
          tractionForceX i c s
            = i.throttle * c.engine_force / c.wheel_radius - brakeTotal i c)
      ∧ ((localVelocity s).x < 0 →
          tractionForceX i c s
            = i.throttle * c.engine_force / c.wheel_radius + brakeTotal i c) := by
  refine ⟨rfl, min_le_right _ _, fun h => ?_, fun h => ?_⟩
  · rw [tractionForceX, rearTorque, throttleForce, signum, if_neg (by linarith)]
    ring
  · rw [tractionForceX, rearTorque, throttleForce, signum, if_pos h]
    ring

/-- C7 (witness): moving forward at local longitudinal speed 1, the braking
term is subtracted. -/
theorem C7_traction_force_witness :
    0 < (localVelocity { zeroState with velocity := ⟨1, 0⟩ }).x
      ∧ tractionForceX zeroInputs defaultConfig { zeroState with velocity := ⟨1, 0⟩ }
        = zeroInputs.throttle * defaultConfig.engine_force / defaultConfig.wheel_radius
          - brakeTotal zeroInputs defaultConfig := by
  have hx : (localVelocity { zeroState with velocity := ⟨1, 0⟩ }).x = 1 := by
    simp [localVelocity, zeroState, rotate]
  constructor
  · rw [hx]; norm_num
  · exact (C7_traction_force zeroInputs defaultConfig
      { zeroState with velocity := ⟨1, 0⟩ }).2.2.1 (by rw [hx]; norm_num)

/- ===== C4 and C8: skid trails ===== -/

theorem lookupMesh_removed {h : Nat} {es : List Nat} (hmem : h ∈ es) :
    ∀ m : MeshStore, lookupMesh h (m.filter fun p => decide (p.1 ∉ es)) = none := by
  intro m
  induction m with
  | nil => rfl
  | cons hd tl ih =>
    rcases hd with ⟨k, msh⟩
    by_cases hk : k ∈ es
    · simpa [List.filter_cons, hk] using ih
    · have hne : k ≠ h := fun he => hk (he ▸ hmem)
      simpa [List.filter_cons, hk, lookupMesh, hne] using ih

theorem lookupMesh_updateMesh_self (h : Nat) (f : SkidMesh → SkidMesh) :
    ∀ m : MeshStore, lookupMesh h (updateMesh h f m) = (lookupMesh h m).map f := by
  intro m
  induction m with
  | nil => rfl
  | cons hd tl ih =>
    rcases hd with ⟨k, msh⟩
    by_cases hk : k = h
    · subst hk
      simp [updateMesh, lookupMesh]
    · simp [updateMesh, lookupMesh, hk, ih]

theorem skidSystem_extend (inp : TireSkidInput) (hslip : inp.slipping = true)
    (sk : CurrentSkid) (h : Nat) (hsk : sk.mesh = some h) (w : SkidWorld)
    (m : SkidMesh) (hm : lookupMesh h w.meshes = some m) :
    skidSystem inp sk w =
      (sk, { w with
        meshes := updateMesh h (fun mm =>
          ⟨mm.positions ++ [(skidVertexPair inp).1, (skidVertexPair inp).2],
            mm.normals ++ [⟨0, 0, 1⟩, ⟨0, 0, 1⟩],
            mm.uvs ++ [(0, 0), (0, 0)]⟩) w.meshes }) := by
  simp only [skidSystem, hslip, hsk, Option.some_bind, hm, Option.map_some']

/-- C4 (counterexample): a wheel starts slipping (opening a trail whose handle
is 0 and whose wheel is still slipping), then the clear command runs; the open
trail's mesh is removed from the assets — the claim that an open trail is
excluded from removal and keeps its vertices fails. -/
theorem C4_clear_counterexample :
    (skidSystem skidInputC4 ⟨none⟩ worldC4).1.mesh = some 0
      ∧ lookupMesh 0
          (cleanupSkids true (skidSystem skidInputC4 ⟨none⟩ worldC4).2).meshes = none := by
  constructor
  · rfl
  · rfl

/-- C4 (amended): the clear command removes every skid trail, sealed and open
alike: the mesh of every entity carrying the Skid marker is removed from the
assets and the entity list is emptied.  An open trail's entity carries that
marker (it is spawned when the trail starts), so an open trail's vertices are
destroyed by a clear rather than preserved. -/
theorem C4_clear_removes_all_trails (w : SkidWorld) (h : Nat)
    (hmem : h ∈ w.skidEntities) :
    lookupMesh h (cleanupSkids true w).meshes = none
      ∧ (cleanupSkids true w).skidEntities = [] := by
  constructor
  · simp only [cleanupSkids, if_pos]
    exact lookupMesh_removed hmem w.meshes
  · simp [cleanupSkids]

/-- C4 (witness): a world holding one trail entity with handle 0; after the
clear its mesh is gone. -/
theorem C4_clear_removes_all_trails_witness :
    0 ∈ (SkidWorld.mk [(0, ⟨[], [], []⟩)] 1 [0]).skidEntities
      ∧ lookupMesh 0 (cleanupSkids true (SkidWorld.mk [(0, ⟨[], [], []⟩)] 1 [0])).meshes
        = none := by
  have hm : 0 ∈ (SkidWorld.mk [(0, ⟨[], [], []⟩)] 1 [0]).skidEntities := by
    simp
  exact ⟨hm, (C4_clear_removes_all_trails _ 0 hm).1⟩

/-- C8: while a wheel's slip flag stays true across n consecutive ticks with an
open trail present, the trail's vertex buffer after the n ticks is exactly the
original buffer with a tail of length 2n appended — two vertices per tick, all
appended at the end, no previously stored vertex mutated — and the trail stays
open under the same handle. -/
theorem C8_trail_monotonic_growth :
    ∀ (n : Nat) (f : Nat → TireSkidInput), (∀ k, (f k).slipping = true) →
    ∀ (sk : CurrentSkid) (w : SkidWorld) (h : Nat) (m : SkidMesh),
      sk.mesh = some h → lookupMesh h w.meshes = some m →
      (runSkidTicks f n sk w).1.mesh = some h
        ∧ ∃ tail, tail.length = 2 * n
          ∧ (lookupMesh h (runSkidTicks f n sk w).2.meshes).map SkidMesh.positions
            = some (m.positions ++ tail) := by
  intro n
  induction n with
  | zero =>
    intro f hf sk w h m hsk hm
    exact ⟨by simpa [runSkidTicks] using hsk, [], by simp, by simp [runSkidTicks, hm]⟩
  | succ n ih =>
    intro f hf sk w h m hsk hm
    have hstep := skidSystem_extend (f 0) (hf 0) sk h hsk w m hm
    have hm1 : lookupMesh h (skidSystem (f 0) sk w).2.meshes
        = some ⟨m.positions ++ [(skidVertexPair (f 0)).1, (skidVertexPair (f 0)).2],
            m.normals ++ [⟨0, 0, 1⟩, ⟨0, 0, 1⟩], m.uvs ++ [(0, 0), (0, 0)]⟩ := by
      simp only [hstep]
      rw [lookupMesh_updateMesh_self, hm]
      rfl
    have hsk1 : (skidSystem (f 0) sk w).1.mesh = some h := by
      simp only [hstep]
      exact hsk
    obtain ⟨ha, tail, hlen, hb⟩ := ih (fun k => f (k + 1)) (fun k => hf (k + 1))
      (skidSystem (f 0) sk w).1 (skidSystem (f 0) sk w).2 h _ hsk1 hm1
    simp only [runSkidTicks]
    refine ⟨ha, [(skidVertexPair (f 0)).1, (skidVertexPair (f 0)).2] ++ tail, ?_, ?_⟩
    · simp [hlen]
      ring
    · rw [hb]
      simp [List.append_assoc]

/-- C8 (witness): one slipping tick from an open empty trail grows the buffer
by exactly one vertex pair. -/
theorem C8_trail_monotonic_growth_witness :
    (∀ k, ((fun _ : Nat => (⟨true, 0, 0, 1⟩ : TireSkidInput)) k).slipping = true)
      ∧ ((runSkidTicks (fun _ => ⟨true, 0, 0, 1⟩) 1 ⟨some 0⟩
            (SkidWorld.mk [(0, ⟨[], [], []⟩)] 1 [0])).1.mesh = some 0
        ∧ ∃ tail, tail.length = 2 * 1
          ∧ (lookupMesh 0 (runSkidTicks (fun _ => ⟨true, 0, 0, 1⟩) 1 ⟨some 0⟩
                (SkidWorld.mk [(0, ⟨[], [], []⟩)] 1 [0])).2.meshes).map SkidMesh.positions
            = some ((⟨[], [], []⟩ : SkidMesh).positions ++ tail)) :=
  ⟨fun _ => rfl,
    C8_trail_monotonic_growth 1 (fun _ => ⟨true, 0, 0, 1⟩) (fun _ => rfl)
      ⟨some 0⟩ (SkidWorld.mk [(0, ⟨[], [], []⟩)] 1 [0]) 0 ⟨[], [], []⟩ rfl rfl⟩

/- ===== C10: paired slip flags ===== -/

/-- C10: in every dynamics step the front-left and front-right slip flags are
equal, the rear-left and rear-right slip flags are equal, and each pair is the
boolean result of the shared per-axle clamp applied before any corner load is
multiplied in. -/
theorem C10_paired_slip_flags_equal (dt : ℝ) (i : CarInputs) (c : CarConfig)
    (s : CarState) :
    (physicsStep dt i c s).stats.front_left_is_skidding
        = (physicsStep dt i c s).stats.front_right_is_skidding
      ∧ (physicsStep dt i c s).stats.rear_left_is_skidding
        = (physicsStep dt i c s).stats.rear_right_is_skidding
      ∧ (physicsStep dt i c s).stats.front_left_is_skidding = (frontClamp i c s).1
      ∧ (physicsStep dt i c s).stats.rear_left_is_skidding = (rearClamp i c s).1 :=
  ⟨rfl, rfl, rfl, rfl⟩

end
